import Mathlib

/-!
Shallow embedding of the signal-generation and position-lifecycle core of
the bot_finance repository.

Conventions of the embedding:
* Python floats are modelled as exact rationals (`ℚ`).
* Python `dict.get(key, default)` reads are modelled by `Option` fields
  together with `Option.getD`.
* Python truthiness of a float (`if x:` is false for `0.0` and `None`) is
  modelled explicitly wherever the source relies on it.
* Wall-clock timestamps (`datetime`) are modelled as rational numbers of
  minutes; `datetime.now()` becomes an explicit `now` parameter and
  `timedelta(minutes=m)` becomes the rational `m`.
* `uuid`-generated identifiers are modelled as an explicit `sid` parameter.
* Persistence (`_save_data`) and console printing are I/O side effects with
  no influence on the in-memory ledger values and are not modelled.
-/

namespace BotFinance

/-- Configuration values from `config/settings.py` that the embedded core
reads (defaults as in `Settings`). -/
structure Settings where
  RSI_OVERSOLD : ℚ
  RSI_OVERBOUGHT : ℚ
  VIX_FEAR_THRESHOLD : ℚ
  US_YIELD_HIGH_THRESHOLD : ℚ
  SIGNAL_HOLDING_TIMEOUT_MINUTES : ℚ
  ALERT_ONLY_NEW_SIGNALS : Bool
deriving DecidableEq

/-- Default values of the settings fields used by the core
(`config/settings.py` lines 41 and 46 and 55-60). -/
def defaultSettings : Settings :=
  { RSI_OVERSOLD := 30
    RSI_OVERBOUGHT := 70
    VIX_FEAR_THRESHOLD := 20
    US_YIELD_HIGH_THRESHOLD := 4
    SIGNAL_HOLDING_TIMEOUT_MINUTES := 240
    ALERT_ONLY_NEW_SIGNALS := true }

/-- The `market_data` dictionary entries read by `generate_trading_signals`
and `get_technical_signals`. A `none` field models an absent key; `error`
models the presence of the `"error"` key. -/
structure MarketData where
  error : Option String
  current_price : Option ℚ
  s1 : Option ℚ
  r1 : Option ℚ
  atr : Option ℚ
  rsi : Option ℚ
  sma200 : Option ℚ
  sma50 : Option ℚ
  macd : Option ℚ
  macd_signal : Option ℚ
deriving DecidableEq

/-- The `sentiment_analysis` dictionary entries read by
`generate_trading_signals`. -/
structure SentimentData where
  score : Option ℚ
  overall_sentiment : Option String
deriving DecidableEq

/-- The `macro_data` dictionary entries read by `generate_trading_signals`. -/
structure MacroData where
  vix : Option ℚ
  us_10y_yield : Option ℚ
deriving DecidableEq

/-- Boolean indicator signals returned by `get_technical_signals`
(`agents/technical_analysis.py` lines 158-166). -/
structure TechSignals where
  rsi_bullish : Bool
  rsi_bearish : Bool
  trend_bullish : Bool
  golden_cross : Bool
  macd_bullish : Bool
  near_support : Bool
  near_support_distance : ℚ
deriving DecidableEq

/-- `get_technical_signals` (`agents/technical_analysis.py` lines 134-166) on
error-free market data; the error early-return of the source (line 144) is
subsumed by the caller, which checks `"error" in market_data` before this
function is reached. Defaults of the `.get` calls are those of
lines 147-153. -/
def get_technical_signals (st : Settings) (md : MarketData) : TechSignals :=
  let current := md.current_price.getD 0
  let rsi := md.rsi.getD 50
  let sma200 := md.sma200.getD current
  let sma50 := md.sma50.getD current
  let macd := md.macd.getD 0
  let macd_signal := md.macd_signal.getD 0
  let s1 := md.s1.getD 0
  let distance_to_s1 := if current > 0 then |s1 - current| / current * 100 else 100
  { rsi_bullish := decide (rsi < st.RSI_OVERSOLD)
    rsi_bearish := decide (rsi > st.RSI_OVERBOUGHT)
    trend_bullish := decide (current > sma200)
    golden_cross := decide (sma50 > sma200)
    macd_bullish := decide (macd > macd_signal)
    near_support := decide (distance_to_s1 < 2)
    near_support_distance := distance_to_s1 }

/-- Accumulated scorer state: bullish points, bearish points and the ordered
rationale strings (`agents/signal_generator.py` lines 79-81). -/
structure ScoreResult where
  bullish : ℚ
  bearish : ℚ
  reasons : List String
deriving DecidableEq

/-- Add bullish points together with a rationale line. -/
def addBull (s : ScoreResult) (pts : ℚ) (reason : String) : ScoreResult :=
  { s with bullish := s.bullish + pts, reasons := s.reasons ++ [reason] }

/-- Add bearish points together with a rationale line. -/
def addBear (s : ScoreResult) (pts : ℚ) (reason : String) : ScoreResult :=
  { s with bearish := s.bearish + pts, reasons := s.reasons ++ [reason] }

/-- Scoring rule of `agents/signal_generator.py` lines 84-89: RSI oversold
gives +2 bullish, else RSI overbought gives +2 bearish. -/
def scoreRsi (ts : TechSignals) (s : ScoreResult) : ScoreResult :=
  if ts.rsi_bullish then addBull s 2 "RSI en survente"
  else if ts.rsi_bearish then addBear s 2 "RSI en surachat"
  else s

/-- Scoring rule of `agents/signal_generator.py` lines 91-96: price above
SMA200 gives +1 bullish, else +1 bearish. -/
def scoreTrend (ts : TechSignals) (s : ScoreResult) : ScoreResult :=
  if ts.trend_bullish then addBull s 1 "Prix au-dessus SMA200 (trend haussier)"
  else addBear s 1 "Prix sous SMA200 (trend baissier)"

/-- Scoring rule of `agents/signal_generator.py` lines 98-103: golden cross
gives +1 bullish, else +1 bearish. -/
def scoreGoldenCross (ts : TechSignals) (s : ScoreResult) : ScoreResult :=
  if ts.golden_cross then addBull s 1 "Golden Cross SMA50/200"
  else addBear s 1 "Death Cross SMA50/200"

/-- Scoring rule of `agents/signal_generator.py` lines 105-110: bullish
MACD gives +1 bullish, else +1 bearish. -/
def scoreMacd (ts : TechSignals) (s : ScoreResult) : ScoreResult :=
  if ts.macd_bullish then addBull s 1 "MACD haussier"
  else addBear s 1 "MACD baissier"

/-- Scoring rule of `agents/signal_generator.py` lines 112-115: proximity
to the S1 support gives +2 bullish. -/
def scoreSupport (ts : TechSignals) (s : ScoreResult) : ScoreResult :=
  if ts.near_support then addBull s 2 "Proche support S1"
  else s

/-- Scoring rule of `agents/signal_generator.py` lines 117-123: sentiment
above 0.7 gives +1 bullish, below 0.3 gives +1 bearish. -/
def scoreSentiment (sentiment_score : ℚ) (sentiment_label : String)
    (s : ScoreResult) : ScoreResult :=
  if sentiment_score > 7/10 then
    addBull s 1 ("Sentiment positif (" ++ sentiment_label ++ ")")
  else if sentiment_score < 3/10 then
    addBear s 1 ("Sentiment négatif (" ++ sentiment_label ++ ")")
  else s

/-- Scoring rule of `agents/signal_generator.py` lines 125-128: VIX above
the fear threshold gives +1 bullish. -/
def scoreVix (st : Settings) (vix : ℚ) (s : ScoreResult) : ScoreResult :=
  if vix > st.VIX_FEAR_THRESHOLD then
    addBull s 1 "VIX élevé favorise les valeurs refuges"
  else s

/-- Scoring rule of `agents/signal_generator.py` lines 130-136: a high US
yield gives +1.5 bearish, a yield below 3.0 gives +0.5 bullish. -/
def scoreYield (st : Settings) (us_yield : ℚ) (s : ScoreResult) : ScoreResult :=
  if us_yield > st.US_YIELD_HIGH_THRESHOLD then
    addBear s (3/2) "Taux US élevés défavorables"
  else if us_yield < 3 then
    addBull s (1/2) "Taux US bas favorables"
  else s

/-- The point-scoring chain of `generate_trading_signals`
(`agents/signal_generator.py` lines 79-136): the eight rule blocks applied
in source order to the zero accumulator. Rationale strings match the
source with the interpolated numeric values omitted. -/
def computePoints (st : Settings) (ts : TechSignals) (sentiment_score : ℚ)
    (sentiment_label : String) (vix us_yield : ℚ) : ScoreResult :=
  scoreYield st us_yield
    (scoreVix st vix
      (scoreSentiment sentiment_score sentiment_label
        (scoreSupport ts
          (scoreMacd ts
            (scoreGoldenCross ts
              (scoreTrend ts
                (scoreRsi ts ⟨0, 0, []⟩)))))))

/-- Confidence computation (`agents/signal_generator.py` lines 138-143):
`bullish / (bullish + bearish)`, guarded to `0.5` when the total is zero. -/
def confidenceOf (bullish bearish : ℚ) : ℚ :=
  if bullish + bearish = 0 then 1/2 else bullish / (bullish + bearish)

/-- Outcome of the decision chain: action string, entry price and the raw
(not yet rounded) stop-loss and take-profit levels. -/
structure Decision where
  action : String
  entry : ℚ
  stop_loss : Option ℚ
  take_profit : Option ℚ
deriving DecidableEq

/-- The decision chain of `generate_trading_signals`
(`agents/signal_generator.py` lines 145-170): five rules tried in order,
first match wins. Action strings are the values of the `ActionSignal`
str-enum. -/
def determine_action (bullish bearish confidence current_price s1 r1 atr : ℚ) : Decision :=
  if bullish ≥ 5 ∧ confidence > 7/10 then
    ⟨"ACHAT_FORT", current_price, some (s1 - atr * (1/2)), some r1⟩
  else if bullish ≥ 3 ∧ confidence > 6/10 then
    ⟨"ACHAT", current_price, some s1, some r1⟩
  else if bearish ≥ 5 ∧ confidence < 3/10 then
    ⟨"VENTE_FORTE", current_price, some (r1 + atr * (1/2)), some s1⟩
  else if bearish ≥ 3 ∧ confidence < 4/10 then
    ⟨"VENTE", current_price, some r1, some s1⟩
  else
    ⟨"NEUTRE", current_price, none, none⟩

/-- Round half to even at integer precision, the rounding mode of Python
`round` (modelled on exact rationals). -/
def roundHalfEven (y : ℚ) : ℤ :=
  let n := ⌊y⌋
  if y - n < 1/2 then n
  else if 1/2 < y - n then n + 1
  else if n % 2 = 0 then n
  else n + 1

/-- Python `round(x, 2)` on exact rationals. -/
def pyRound2 (x : ℚ) : ℚ := (roundHalfEven (x * 100) : ℚ) / 100

/-- The packaging of an optional price level
(`agents/signal_generator.py` lines 190-191):
`round(x, 2) if x else None`.  Python float truthiness makes a level equal
to `0.0` collapse to `None`, exactly like an absent level. -/
def truthyRound (x : Option ℚ) : Option ℚ :=
  match x with
  | none => none
  | some v => if v = 0 then none else some (pyRound2 v)

/-- The `SignalTrading` pydantic model (`agents/signal_generator.py`
lines 22-30). `action` carries the string value of the `ActionSignal`
str-enum. -/
structure SignalTrading where
  ticker : String
  action : String
  prix_entree : ℚ
  stop_loss : Option ℚ
  take_profit : Option ℚ
  confiance : ℚ
  raisonnement : String
deriving DecidableEq

/-- The snapshot price levels read with defaults at
`agents/signal_generator.py` lines 62-65. Returned as
(current_price, s1, r1, atr). -/
def snapshotLevels (md : MarketData) : ℚ × ℚ × ℚ × ℚ :=
  let current_price := md.current_price.getD 0
  (current_price,
   md.s1.getD (current_price * (98/100)),
   md.r1.getD (current_price * (102/100)),
   md.atr.getD (current_price * (1/100)))

/-- The scorer stage of `generate_trading_signals` on error-free market
data (`agents/signal_generator.py` lines 67-136), with the `.get` defaults
of lines 71-76. -/
def scoreOf (st : Settings) (md : MarketData) (sa : SentimentData) (mc : MacroData) :
    ScoreResult :=
  computePoints st (get_technical_signals st md)
    (sa.score.getD (1/2)) (sa.overall_sentiment.getD "NEUTRE")
    (mc.vix.getD 15) (mc.us_10y_yield.getD 3)

/-- The decision stage of `generate_trading_signals` on error-free market
data (`agents/signal_generator.py` lines 138-170). -/
def decisionOf (st : Settings) (md : MarketData) (sa : SentimentData) (mc : MacroData) :
    Decision :=
  let levels := snapshotLevels md
  let sc := scoreOf st md sa mc
  determine_action sc.bullish sc.bearish (confidenceOf sc.bullish sc.bearish)
    levels.1 levels.2.1 levels.2.2.1 levels.2.2.2

/-- `generate_trading_signals` (`agents/signal_generator.py` lines 33-194).
The error branch (lines 51-60) is exact, with the rationale naming the
error. In the normal branch the multiline rationale template of
lines 173-184 is abstracted to the joined list of factor lines; every
other field is as in lines 186-194, including the
`round(x, 2) if x else None` packaging of the price levels. -/
def generate_trading_signals (st : Settings) (ticker : String) (md : MarketData)
    (sa : SentimentData) (mc : MacroData) : SignalTrading :=
  match md.error with
  | some e =>
    { ticker := ticker
      action := "NEUTRE"
      prix_entree := 0
      stop_loss := none
      take_profit := none
      confiance := 0
      raisonnement := "Erreur données: " ++ e }
  | none =>
    let sc := scoreOf st md sa mc
    let d := decisionOf st md sa mc
    { ticker := ticker
      action := d.action
      prix_entree := pyRound2 d.entry
      stop_loss := truthyRound d.stop_loss
      take_profit := truthyRound d.take_profit
      confiance := pyRound2 (confidenceOf sc.bullish sc.bearish)
      raisonnement := String.intercalate "; " sc.reasons }

/-! Position tracker (`agents/signal_performance.py`). The ledger
`self.signals` is a list; every operation is modelled as a pure function
from the list (plus explicit `now` / identifier parameters) to the new
list together with the source's return value. -/

/-- The `SignalPerformance` pydantic model
(`agents/signal_performance.py` lines 19-34). `action`, `status` and
`exit_reason` carry the source's string values; timestamps are rational
minutes. -/
structure SignalPerformance where
  signal_id : String
  ticker : String
  action : String
  entry_price : ℚ
  exit_price : Option ℚ
  stop_loss : Option ℚ
  take_profit : Option ℚ
  timestamp_entry : ℚ
  timestamp_exit : Option ℚ
  status : String
  pnl_percent : Option ℚ
  holding_period_minutes : Option ℤ
  confiance_at_entry : ℚ
  exit_reason : Option String
deriving DecidableEq

/-- Python `int(x)` on a rational: truncation toward zero. -/
def truncQ (x : ℚ) : ℤ := if 0 ≤ x then ⌊x⌋ else ⌈x⌉

/-- Membership test `action in ["ACHAT", "ACHAT_FORT"]`
(`agents/signal_performance.py` lines 128 and 163 and 218). -/
def isBuyFamily (a : String) : Bool := a == "ACHAT" || a == "ACHAT_FORT"

/-- Membership test `action in ["VENTE", "VENTE_FORTE"]`
(`agents/signal_performance.py` lines 130 and 165 and 225). -/
def isSellFamily (a : String) : Bool := a == "VENTE" || a == "VENTE_FORTE"

/-- The direction-aware P&L formula shared by `update_signal` and
`close_signal` (`agents/signal_performance.py` lines 128-133 and 163-168):
`(price - entry)/entry*100` for the BUY family,
`(entry - price)/entry*100` for the SELL family, `0.0` otherwise. -/
def pnlOf (action : String) (entry price : ℚ) : ℚ :=
  if isBuyFamily action then (price - entry) / entry * 100
  else if isSellFamily action then (entry - price) / entry * 100
  else 0

/-- Terminal status classification of `close_signal`
(`agents/signal_performance.py` lines 170-176). -/
def classifyStatus (pnl : ℚ) : String :=
  if pnl > 1/2 then "CLOSED_WIN"
  else if pnl < -(1/2) then "CLOSED_LOSS"
  else "CLOSED_NEUTRAL"

/-- The in-place mutation `update_signal` performs on the matched OPEN
signal (`agents/signal_performance.py` lines 127-138). -/
def applyUpdate (sig : SignalPerformance) (current_price now : ℚ) : SignalPerformance :=
  { sig with
    pnl_percent := some (pnlOf sig.action sig.entry_price current_price)
    holding_period_minutes := some (truncQ (now - sig.timestamp_entry)) }

/-- The in-place mutation `close_signal` performs on the matched OPEN
signal (`agents/signal_performance.py` lines 158-181): exit fields and
final P&L, terminal status, holding time — all set together. -/
def applyClose (sig : SignalPerformance) (exit_price : ℚ) (reason : String) (now : ℚ) :
    SignalPerformance :=
  let pnl := pnlOf sig.action sig.entry_price exit_price
  { sig with
    exit_price := some exit_price
    timestamp_exit := some now
    exit_reason := some reason
    pnl_percent := some pnl
    status := classifyStatus pnl
    holding_period_minutes := some (truncQ (now - sig.timestamp_entry)) }

/-- `record_signal` (`agents/signal_performance.py` lines 87-116): appends
a fresh OPEN position; the `uuid`-derived identifier is the explicit `sid`
parameter. Returns the new ledger (the source returns `sid` itself). -/
def record_signal (sigs : List SignalPerformance) (ticker action : String)
    (entry_price : ℚ) (stop_loss take_profit : Option ℚ) (confiance : ℚ)
    (sid : String) (now : ℚ) : List SignalPerformance :=
  sigs ++ [{ signal_id := sid
             ticker := ticker
             action := action
             entry_price := entry_price
             exit_price := none
             stop_loss := stop_loss
             take_profit := take_profit
             timestamp_entry := now
             timestamp_exit := none
             status := "OPEN"
             pnl_percent := none
             holding_period_minutes := none
             confiance_at_entry := confiance
             exit_reason := none }]

/-- `update_signal` (`agents/signal_performance.py` lines 118-142): mutate
the first signal whose id matches and whose status is OPEN, return it;
`none` and an unchanged ledger when no such signal exists. -/
def update_signal : List SignalPerformance → String → ℚ → ℚ →
    List SignalPerformance × Option SignalPerformance
  | [], _, _, _ => ([], none)
  | sig :: rest, sid, p, now =>
    if sig.signal_id = sid ∧ sig.status = "OPEN" then
      let u := applyUpdate sig p now
      (u :: rest, some u)
    else
      let r := update_signal rest sid p now
      (sig :: r.1, r.2)

/-- `close_signal` (`agents/signal_performance.py` lines 144-185): mutate
the first signal whose id matches and whose status is OPEN, return it;
`none` and an unchanged ledger when no such signal exists. -/
def close_signal : List SignalPerformance → String → ℚ → String → ℚ →
    List SignalPerformance × Option SignalPerformance
  | [], _, _, _, _ => ([], none)
  | sig :: rest, sid, p, reason, now =>
    if sig.signal_id = sid ∧ sig.status = "OPEN" then
      let c := applyClose sig p reason now
      (c :: rest, some c)
    else
      let r := close_signal rest sid p reason now
      (sig :: r.1, r.2)

/-- The per-ticker market entry read by `check_and_close_signals`
(`agents/signal_performance.py` lines 203-209); an absent ticker maps to
`⟨none, none⟩` (empty dictionary default). -/
structure TickerData where
  error : Option String
  current_price : Option ℚ
deriving DecidableEq

/-- Truthiness-guarded price-level trigger: the Python conditions
`signal.take_profit and price >= signal.take_profit` evaluate to false
when the level is `None` or `0.0` (`agents/signal_performance.py`
lines 219-231). `hit` is the comparison applied to the level. -/
def levelHit (level : Option ℚ) (hit : ℚ → Bool) : Bool :=
  match level with
  | none => false
  | some v => if v = 0 then false else hit v

/-- The TP/SL portion of the exit check of `check_and_close_signals`
(`agents/signal_performance.py` lines 214-231): TP is tried before SL for
each action family; actions outside both families trigger neither. -/
def tpslReason (sig : SignalPerformance) (p : ℚ) : Option String :=
  if isBuyFamily sig.action then
    if levelHit sig.take_profit (fun tp => decide (p ≥ tp)) then some "TP"
    else if levelHit sig.stop_loss (fun sl => decide (p ≤ sl)) then some "SL"
    else none
  else if isSellFamily sig.action then
    if levelHit sig.take_profit (fun tp => decide (p ≤ tp)) then some "TP"
    else if levelHit sig.stop_loss (fun sl => decide (p ≥ sl)) then some "SL"
    else none
  else none

/-- The age-timeout condition of `check_and_close_signals`
(`agents/signal_performance.py` lines 233-237):
`datetime.now() - entry_time > timedelta(minutes=...)` — strictly
greater. -/
def timedOut (st : Settings) (sig : SignalPerformance) (now : ℚ) : Bool :=
  decide (now - sig.timestamp_entry > st.SIGNAL_HOLDING_TIMEOUT_MINUTES)

/-- Net exit decision for one signal in `check_and_close_signals`
(`agents/signal_performance.py` lines 214-237). The source sets
`should_close`/`reason` in sequence: the TP-before-SL block first, then
the timeout check, whose assignment `reason = "TIMEOUT"` overwrites any
previously set reason. The net effect: when the timeout fires the reason
is TIMEOUT; otherwise the reason is the TP/SL result. -/
def exitDecision (st : Settings) (sig : SignalPerformance) (p now : ℚ) : Option String :=
  if timedOut st sig now then some "TIMEOUT" else tpslReason sig p

/-- The loop body of `check_and_close_signals`
(`agents/signal_performance.py` lines 199-244), iterating by index `k`
over the evolving ledger (Python iterates over the list of mutable signal
objects; `update_signal`/`close_signal` target the first OPEN id-match,
which is how the source behaves even if ids repeat). `fuel` bounds the
recursion; `check_and_close_signals` supplies the list length. Returns
the final ledger and the closed signals in iteration order. -/
def ccLoop (st : Settings) (market : String → TickerData) (now : ℚ) :
    Nat → Nat → List SignalPerformance →
    List SignalPerformance × List SignalPerformance
  | 0, _, sigs => (sigs, [])
  | fuel + 1, k, sigs =>
    match sigs[k]? with
    | none => (sigs, [])
    | some sig =>
      if sig.status ≠ "OPEN" then ccLoop st market now fuel (k + 1) sigs
      else
        let td := market sig.ticker
        if td.error.isSome then ccLoop st market now fuel (k + 1) sigs
        else
          match td.current_price with
          | none => ccLoop st market now fuel (k + 1) sigs
          | some p =>
            if p = 0 then ccLoop st market now fuel (k + 1) sigs
            else
              let sigs1 := (update_signal sigs sig.signal_id p now).1
              match exitDecision st sig p now with
              | none => ccLoop st market now fuel (k + 1) sigs1
              | some reason =>
                let c := close_signal sigs1 sig.signal_id p reason now
                match c.2 with
                | some closed =>
                  let r := ccLoop st market now fuel (k + 1) c.1
                  (r.1, closed :: r.2)
                | none => ccLoop st market now fuel (k + 1) c.1

/-- `check_and_close_signals` (`agents/signal_performance.py`
lines 187-244): visit every signal once; skip non-OPEN signals, tickers
with an error entry and tickers whose current price is absent or `0.0`
(falsy); update unrealized P&L; close on the `exitDecision` reason. -/
def check_and_close_signals (st : Settings) (market : String → TickerData)
    (now : ℚ) (sigs : List SignalPerformance) :
    List SignalPerformance × List SignalPerformance :=
  ccLoop st market now sigs.length 0 sigs

/-- The `PerformanceMetrics` fields computed by the embedded
`get_performance_metrics` (`agents/signal_performance.py` lines 37-50);
`best_trade`, `worst_trade` and `by_action` are not referenced by any
claim and are omitted from the model. -/
structure PerformanceMetrics where
  total_signals : ℕ
  win_count : ℕ
  loss_count : ℕ
  neutral_count : ℕ
  open_count : ℕ
  win_rate : ℚ
  avg_return_percent : ℚ
  avg_holding_time_minutes : ℤ
deriving DecidableEq

/-- The all-zero metrics object (field defaults of lines 39-46). -/
def emptyMetrics : PerformanceMetrics :=
  { total_signals := 0
    win_count := 0
    loss_count := 0
    neutral_count := 0
    open_count := 0
    win_rate := 0
    avg_return_percent := 0
    avg_holding_time_minutes := 0 }

/-- Count the ledger entries matching a predicate — the counter increments
of the status loop at `agents/signal_performance.py` lines 282-290. -/
def countMatching (p : SignalPerformance → Bool) : List SignalPerformance → ℕ
  | [] => 0
  | s :: rest => (if p s then 1 else 0) + countMatching p rest

/-- The window/ticker filter of `get_performance_metrics`
(`agents/signal_performance.py` lines 265-272): keep signals whose entry
timestamp is at least `now - days` (days converted to minutes) and whose
ticker matches the optional filter. -/
def metricsFilter (sigs : List SignalPerformance) (days : ℕ)
    (ticker : Option String) (now : ℚ) : List SignalPerformance :=
  sigs.filter fun s =>
    decide (s.timestamp_entry ≥ now - (days : ℚ) * 1440) &&
    (match ticker with
     | none => true
     | some t => s.ticker == t)

/-- `get_performance_metrics` (`agents/signal_performance.py`
lines 250-350, without the unclaimed `best_trade`/`worst_trade`/`by_action`
outputs). Statuses are counted by the chain OPEN / CLOSED_WIN /
CLOSED_LOSS / else-neutral of lines 282-290; the win rate of lines 292-295
divides the win count by the count of ALL non-open (closed) signals,
neutrals included. -/
def get_performance_metrics (sigs : List SignalPerformance) (days : ℕ)
    (ticker : Option String) (now : ℚ) : PerformanceMetrics :=
  let filtered := metricsFilter sigs days ticker now
  if filtered.length = 0 then emptyMetrics
  else
    let open_count := countMatching (fun s => s.status == "OPEN") filtered
    let win_count := countMatching (fun s => s.status == "CLOSED_WIN") filtered
    let loss_count := countMatching (fun s => s.status == "CLOSED_LOSS") filtered
    let neutral_count := countMatching (fun s =>
      !(s.status == "OPEN" || s.status == "CLOSED_WIN" || s.status == "CLOSED_LOSS")) filtered
    let closed := win_count + loss_count + neutral_count
    let win_rate : ℚ := if closed > 0 then (win_count : ℚ) / (closed : ℚ) else 0
    let with_pnl := filtered.filter (fun s => s.pnl_percent.isSome)
    let avg_return : ℚ :=
      if with_pnl.length = 0 then 0
      else (with_pnl.map (fun s => s.pnl_percent.getD 0)).sum / (with_pnl.length : ℚ)
    let with_time := filtered.filter (fun s => s.holding_period_minutes.isSome)
    let avg_holding : ℤ :=
      if with_time.length = 0 then 0
      else truncQ (((with_time.map (fun s => s.holding_period_minutes.getD 0)).sum : ℚ) /
        (with_time.length : ℚ))
    { total_signals := filtered.length
      win_count := win_count
      loss_count := loss_count
      neutral_count := neutral_count
      open_count := open_count
      win_rate := win_rate
      avg_return_percent := avg_return
      avg_holding_time_minutes := avg_holding }

/-- `AlertMonitor._is_new_signal` (`alert_monitor.py` lines 98-107). The
`last_signals` map (ticker → last alerted action) is an association list;
`dict.get` is `List.lookup`. When the only-new-signals mode is off, every
signal counts as new; otherwise the signal is new exactly when the looked
up previous action (possibly absent) differs from the new action. -/
def is_new_signal (alertOnlyNew : Bool) (last_signals : List (String × String))
    (ticker action : String) : Bool :=
  if !alertOnlyNew then true
  else if last_signals.lookup ticker ≠ some action then true
  else false

/-- The three terminal status strings of the position state machine
(`agents/signal_performance.py` line 30). -/
def closedStatuses : List String := ["CLOSED_WIN", "CLOSED_LOSS", "CLOSED_NEUTRAL"]

/-- Per-position ledger invariant: an OPEN position has no exit data; a
position in a terminal status has exit price, exit timestamp, exit reason
and final P&L all set. -/
def posInvariant (sig : SignalPerformance) : Prop :=
  (sig.status = "OPEN" →
    sig.exit_price = none ∧ sig.timestamp_exit = none ∧ sig.exit_reason = none) ∧
  (sig.status ∈ closedStatuses →
    sig.exit_price ≠ none ∧ sig.timestamp_exit ≠ none ∧
    sig.exit_reason ≠ none ∧ sig.pnl_percent ≠ none)

/-- Ledger-wide invariant: every position satisfies `posInvariant`. -/
def ledgerInvariant (sigs : List SignalPerformance) : Prop :=
  ∀ sig ∈ sigs, posInvariant sig

/-! Concrete inputs used to instantiate the theorems below. -/

/-- A market snapshot whose explicit `s1 = 0` support level scores to a BUY
decision (bullish 4, bearish 1, confidence 4/5). -/
def mdZeroS1 : MarketData :=
  { error := none
    current_price := some 100
    s1 := some 0
    r1 := some 102
    atr := some 1
    rsi := some 20
    sma200 := some 99
    sma50 := some 98
    macd := some 1
    macd_signal := some 0 }

/-- A neutral sentiment input. -/
def saNeutral : SentimentData := { score := some (1/2), overall_sentiment := none }

/-- An all-false indicator input (far from support). -/
def tsAllFalse : TechSignals := ⟨false, false, false, false, false, false, 100⟩

/-- Both score totals are nonnegative. -/
def NonnegSR (s : ScoreResult) : Prop := 0 ≤ s.bullish ∧ 0 ≤ s.bearish

/-- A calm macro input (no VIX or yield points). -/
def mcCalm : MacroData := { vix := some 15, us_10y_yield := some 3 }

/-- An OPEN BUY position: entry 100, stop 97, target 105, opened at
minute 0. -/
def sigOpenBuy : SignalPerformance :=
  { signal_id := "a1"
    ticker := "GC=F"
    action := "ACHAT"
    entry_price := 100
    exit_price := none
    stop_loss := some 97
    take_profit := some 105
    timestamp_entry := 0
    timestamp_exit := none
    status := "OPEN"
    pnl_percent := none
    holding_period_minutes := none
    confiance_at_entry := 8/10
    exit_reason := none }

/-- An OPEN SELL position: entry 100, target 95, stop 103. -/
def sigOpenSell : SignalPerformance :=
  { sigOpenBuy with
    signal_id := "a2"
    action := "VENTE"
    take_profit := some 95
    stop_loss := some 103 }

/-- Market data mapping ticker GC=F to current price 106 (above
`sigOpenBuy`'s take-profit level). -/
def mktGold106 : String → TickerData := fun t =>
  if t = "GC=F" then { error := none, current_price := some 106 }
  else { error := none, current_price := none }

/-- A closed winning position. -/
def sigClosedWin : SignalPerformance :=
  { sigOpenBuy with
    signal_id := "w1"
    status := "CLOSED_WIN"
    exit_price := some 110
    timestamp_exit := some 10
    exit_reason := some "TP"
    pnl_percent := some 10
    holding_period_minutes := some 10 }

/-- A closed neutral position. -/
def sigClosedNeutral : SignalPerformance :=
  { sigOpenBuy with
    signal_id := "n1"
    status := "CLOSED_NEUTRAL"
    exit_price := some 100
    timestamp_exit := some 10
    exit_reason := some "TIMEOUT"
    pnl_percent := some 0
    holding_period_minutes := some 10 }

/-! Theorems. -/

/-- C9: when the market data carries an error, `generate_trading_signals`
returns the degraded signal — action NEUTRE, confidence 0, entry 0, null
stop-loss and take-profit, and a rationale naming the error — instead of
failing. -/
theorem C9_data_error_degrades_to_neutral (st : Settings) (ticker : String)
    (md : MarketData) (sa : SentimentData) (mc : MacroData) (e : String)
    (h : md.error = some e) :
    generate_trading_signals st ticker md sa mc =
      { ticker := ticker
        action := "NEUTRE"
        prix_entree := 0
        stop_loss := none
        take_profit := none
        confiance := 0
        raisonnement := "Erreur données: " ++ e } := by
  unfold generate_trading_signals
  rw [h]

/-- Witness for C9 at a concrete erroneous snapshot. -/
theorem C9_data_error_degrades_to_neutral_witness :
    ({ mdZeroS1 with error := some "no data" } : MarketData).error = some "no data" ∧
    generate_trading_signals defaultSettings "GC=F"
      { mdZeroS1 with error := some "no data" } saNeutral mcCalm =
      { ticker := "GC=F"
        action := "NEUTRE"
        prix_entree := 0
        stop_loss := none
        take_profit := none
        confiance := 0
        raisonnement := "Erreur données: " ++ "no data" } :=
  ⟨rfl, C9_data_error_degrades_to_neutral defaultSettings "GC=F"
    { mdZeroS1 with error := some "no data" } saNeutral mcCalm "no data" rfl⟩

/-- C8: with the only-new-signals mode enabled, `is_new_signal` returns
true exactly when the ticker is absent from the last-signals map or the
mapped action differs from the new action; in particular a repeat of
ACHAT_FORT for GC=F is not new, while a change to VENTE is. -/
theorem C8_dedup_new_or_changed (m : List (String × String)) (ticker action : String) :
    (is_new_signal true m ticker action = true ↔
      (m.lookup ticker = none ∨ m.lookup ticker ≠ some action)) ∧
    is_new_signal true [("GC=F", "ACHAT_FORT")] "GC=F" "ACHAT_FORT" = false ∧
    is_new_signal true [("GC=F", "ACHAT_FORT")] "GC=F" "VENTE" = true ∧
    is_new_signal true [] "GC=F" "ACHAT_FORT" = true := by
  refine ⟨?_, by decide, by decide, by decide⟩
  by_cases h : m.lookup ticker = some action
  · simp [is_new_signal, h]
  · simp [is_new_signal, h]

/-- Witness for C8 at a concrete map. -/
theorem C8_dedup_new_or_changed_witness :
    is_new_signal true [("GC=F", "ACHAT_FORT")] "SI=F" "VENTE" = true :=
  (C8_dedup_new_or_changed [("GC=F", "ACHAT_FORT")] "SI=F" "VENTE").1.mpr
    (Or.inl (by decide))

/-- C6: closing is idempotent on terminal positions — if every position in
the ledger bearing the given id is not OPEN, `close_signal` returns `none`
(reported as not found) and leaves the ledger unchanged, so no field of
the already-closed position is altered and no transition out of a terminal
state occurs. -/
theorem C6_close_terminal_is_noop (sigs : List SignalPerformance) (sid : String)
    (p : ℚ) (reason : String) (now : ℚ)
    (hclosed : ∀ s ∈ sigs, s.signal_id = sid → s.status ≠ "OPEN") :
    close_signal sigs sid p reason now = (sigs, none) := by
  induction sigs with
  | nil => rfl
  | cons sig rest ih =>
    have hguard : ¬(sig.signal_id = sid ∧ sig.status = "OPEN") := by
      rintro ⟨h1, h2⟩
      exact hclosed sig (List.mem_cons_self sig rest) h1 h2
    have hrest := ih (fun s hs h => hclosed s (List.mem_cons_of_mem sig hs) h)
    simp only [close_signal, if_neg hguard, hrest]

/-- Witness for C6: re-closing an already closed position. -/
theorem C6_close_terminal_is_noop_witness :
    (∀ s ∈ [sigClosedWin], s.signal_id = "w1" → s.status ≠ "OPEN") ∧
    close_signal [sigClosedWin] "w1" 120 "TP" 99 = ([sigClosedWin], none) :=
  ⟨by decide, C6_close_terminal_is_noop [sigClosedWin] "w1" 120 "TP" 99 (by decide)⟩

/-- C1: the signal factory evaluates its five decision rules in strict
priority order with first match winning — bullish ≥ 5 and confidence > 0.7
gives ACHAT_FORT (STRONG_BUY) with stop s1 − 0.5·atr and target r1; then
bullish ≥ 3 and confidence > 0.6 gives ACHAT with stop s1 and target r1;
then bearish ≥ 5 and confidence < 0.3 gives VENTE_FORTE with stop
r1 + 0.5·atr and target s1; then bearish ≥ 3 and confidence < 0.4 gives
VENTE with stop r1 and target s1; otherwise NEUTRE with null stop and
target. Entry is always the snapshot's current price, and bullish = 6,
bearish = 1 yields confidence 6/7 and action ACHAT_FORT. -/
theorem C1_decision_priority (bullish bearish confidence current_price s1 r1 atr : ℚ) :
    (determine_action bullish bearish confidence current_price s1 r1 atr).entry
      = current_price ∧
    (bullish ≥ 5 ∧ confidence > 7/10 →
      determine_action bullish bearish confidence current_price s1 r1 atr =
        ⟨"ACHAT_FORT", current_price, some (s1 - atr * (1/2)), some r1⟩) ∧
    (¬(bullish ≥ 5 ∧ confidence > 7/10) → bullish ≥ 3 ∧ confidence > 6/10 →
      determine_action bullish bearish confidence current_price s1 r1 atr =
        ⟨"ACHAT", current_price, some s1, some r1⟩) ∧
    (¬(bullish ≥ 5 ∧ confidence > 7/10) → ¬(bullish ≥ 3 ∧ confidence > 6/10) →
      bearish ≥ 5 ∧ confidence < 3/10 →
      determine_action bullish bearish confidence current_price s1 r1 atr =
        ⟨"VENTE_FORTE", current_price, some (r1 + atr * (1/2)), some s1⟩) ∧
    (¬(bullish ≥ 5 ∧ confidence > 7/10) → ¬(bullish ≥ 3 ∧ confidence > 6/10) →
      ¬(bearish ≥ 5 ∧ confidence < 3/10) → bearish ≥ 3 ∧ confidence < 4/10 →
      determine_action bullish bearish confidence current_price s1 r1 atr =
        ⟨"VENTE", current_price, some r1, some s1⟩) ∧
    (¬(bullish ≥ 5 ∧ confidence > 7/10) → ¬(bullish ≥ 3 ∧ confidence > 6/10) →
      ¬(bearish ≥ 5 ∧ confidence < 3/10) → ¬(bearish ≥ 3 ∧ confidence < 4/10) →
      determine_action bullish bearish confidence current_price s1 r1 atr =
        ⟨"NEUTRE", current_price, none, none⟩) ∧
    confidenceOf 6 1 = 6/7 ∧
    (determine_action 6 1 (confidenceOf 6 1) current_price s1 r1 atr).action
      = "ACHAT_FORT" := by
  have hconf : confidenceOf 6 1 = 6/7 := by norm_num [confidenceOf]
  refine ⟨?_, ?_, ?_, ?_, ?_, ?_, hconf, ?_⟩
  · unfold determine_action
    split_ifs <;> rfl
  · intro h1
    unfold determine_action
    rw [if_pos h1]
  · intro h1 h2
    unfold determine_action
    rw [if_neg h1, if_pos h2]
  · intro h1 h2 h3
    unfold determine_action
    rw [if_neg h1, if_neg h2, if_pos h3]
  · intro h1 h2 h3 h4
    unfold determine_action
    rw [if_neg h1, if_neg h2, if_neg h3, if_pos h4]
  · intro h1 h2 h3 h4
    unfold determine_action
    rw [if_neg h1, if_neg h2, if_neg h3, if_neg h4]
  · rw [hconf]
    unfold determine_action
    rw [if_pos (by norm_num)]

/-- Witness for C1: the second rule fires for bullish 4, bearish 1,
confidence 4/5. -/
theorem C1_decision_priority_witness :
    determine_action 4 1 (4/5) 100 95 105 2 = ⟨"ACHAT", 100, some 95, some 105⟩ :=
  (C1_decision_priority 4 1 (4/5) 100 95 105 2).2.2.1 (by norm_num) (by norm_num)

/-- Adding bullish points with a nonnegative weight preserves
nonnegativity of both totals. -/
theorem NonnegSR.addBull {s : ScoreResult} (h : NonnegSR s) {pts : ℚ}
    (hp : 0 ≤ pts) (reason : String) : NonnegSR (BotFinance.addBull s pts reason) :=
  ⟨add_nonneg h.1 hp, h.2⟩

/-- Adding bearish points with a nonnegative weight preserves
nonnegativity of both totals. -/
theorem NonnegSR.addBear {s : ScoreResult} (h : NonnegSR s) {pts : ℚ}
    (hp : 0 ≤ pts) (reason : String) : NonnegSR (BotFinance.addBear s pts reason) :=
  ⟨h.1, add_nonneg h.2 hp⟩

/-- A branch between two nonnegative score states is nonnegative. -/
theorem NonnegSR.branch (c : Prop) [Decidable c] {a b : ScoreResult}
    (ha : NonnegSR a) (hb : NonnegSR b) : NonnegSR (if c then a else b) := by
  split_ifs <;> assumption

/-- The zero accumulator is nonnegative. -/
theorem NonnegSR.zero : NonnegSR ⟨0, 0, []⟩ := ⟨le_refl 0, le_refl 0⟩

/-- The RSI rule preserves nonnegativity. -/
theorem scoreRsi_nonneg (ts : TechSignals) {s : ScoreResult} (h : NonnegSR s) :
    NonnegSR (scoreRsi ts s) := by
  unfold scoreRsi
  split_ifs
  · exact h.addBull (by norm_num) _
  · exact h.addBear (by norm_num) _
  · exact h

/-- The trend rule preserves nonnegativity. -/
theorem scoreTrend_nonneg (ts : TechSignals) {s : ScoreResult} (h : NonnegSR s) :
    NonnegSR (scoreTrend ts s) := by
  unfold scoreTrend
  split_ifs
  · exact h.addBull (by norm_num) _
  · exact h.addBear (by norm_num) _

/-- The golden-cross rule preserves nonnegativity. -/
theorem scoreGoldenCross_nonneg (ts : TechSignals) {s : ScoreResult} (h : NonnegSR s) :
    NonnegSR (scoreGoldenCross ts s) := by
  unfold scoreGoldenCross
  split_ifs
  · exact h.addBull (by norm_num) _
  · exact h.addBear (by norm_num) _

/-- The MACD rule preserves nonnegativity. -/
theorem scoreMacd_nonneg (ts : TechSignals) {s : ScoreResult} (h : NonnegSR s) :
    NonnegSR (scoreMacd ts s) := by
  unfold scoreMacd
  split_ifs
  · exact h.addBull (by norm_num) _
  · exact h.addBear (by norm_num) _

/-- The support-proximity rule preserves nonnegativity. -/
theorem scoreSupport_nonneg (ts : TechSignals) {s : ScoreResult} (h : NonnegSR s) :
    NonnegSR (scoreSupport ts s) := by
  unfold scoreSupport
  split_ifs
  · exact h.addBull (by norm_num) _
  · exact h

/-- The sentiment rule preserves nonnegativity. -/
theorem scoreSentiment_nonneg (sc : ℚ) (l : String) {s : ScoreResult}
    (h : NonnegSR s) : NonnegSR (scoreSentiment sc l s) := by
  unfold scoreSentiment
  split_ifs
  · exact h.addBull (by norm_num) _
  · exact h.addBear (by norm_num) _
  · exact h

/-- The VIX rule preserves nonnegativity. -/
theorem scoreVix_nonneg (st : Settings) (v : ℚ) {s : ScoreResult}
    (h : NonnegSR s) : NonnegSR (scoreVix st v s) := by
  unfold scoreVix
  split_ifs
  · exact h.addBull (by norm_num) _
  · exact h

/-- The yield rule preserves nonnegativity. -/
theorem scoreYield_nonneg (st : Settings) (y : ℚ) {s : ScoreResult}
    (h : NonnegSR s) : NonnegSR (scoreYield st y s) := by
  unfold scoreYield
  split_ifs
  · exact h.addBear (by norm_num) _
  · exact h.addBull (by norm_num) _
  · exact h

/-- The scorer only ever adds nonnegative point weights, so both totals
are nonnegative for every input. -/
theorem computePoints_nonneg (st : Settings) (ts : TechSignals) (s : ℚ)
    (l : String) (v y : ℚ) :
    0 ≤ (computePoints st ts s l v y).bullish ∧
    0 ≤ (computePoints st ts s l v y).bearish := by
  show NonnegSR _
  unfold computePoints
  exact scoreYield_nonneg st y (scoreVix_nonneg st v (scoreSentiment_nonneg s l
    (scoreSupport_nonneg ts (scoreMacd_nonneg ts (scoreGoldenCross_nonneg ts
      (scoreTrend_nonneg ts (scoreRsi_nonneg ts NonnegSR.zero)))))))

/-- C4: the confidence is `bullish / (bullish + bearish)` whenever the
total is nonzero, the division is guarded — any input with both totals
zero yields confidence 0.5, never a fault — and for every scorer input the
resulting confidence lies in [0, 1]. -/
theorem C4_confidence_guarded_and_bounded (st : Settings) (ts : TechSignals)
    (s : ℚ) (l : String) (v y : ℚ) :
    ((computePoints st ts s l v y).bullish + (computePoints st ts s l v y).bearish ≠ 0 →
      confidenceOf (computePoints st ts s l v y).bullish (computePoints st ts s l v y).bearish =
        (computePoints st ts s l v y).bullish /
          ((computePoints st ts s l v y).bullish + (computePoints st ts s l v y).bearish)) ∧
    (∀ b r : ℚ, b = 0 ∧ r = 0 → confidenceOf b r = 1/2) ∧
    0 ≤ confidenceOf (computePoints st ts s l v y).bullish (computePoints st ts s l v y).bearish ∧
    confidenceOf (computePoints st ts s l v y).bullish (computePoints st ts s l v y).bearish ≤ 1 := by
  obtain ⟨hb, hr⟩ := computePoints_nonneg st ts s l v y
  set b := (computePoints st ts s l v y).bullish with hbdef
  set r := (computePoints st ts s l v y).bearish with hrdef
  refine ⟨?_, ?_, ?_, ?_⟩
  · intro hne
    unfold confidenceOf
    rw [if_neg hne]
  · rintro b r ⟨rfl, rfl⟩
    norm_num [confidenceOf]
  · unfold confidenceOf
    split_ifs with h
    · norm_num
    · exact div_nonneg hb (by linarith)
  · unfold confidenceOf
    split_ifs with h
    · norm_num
    · have hpos : 0 < b + r := lt_of_le_of_ne (by linarith) (Ne.symm h)
      rw [div_le_one hpos]
      linarith

/-- Witness for C4 at a concrete all-false indicator input. -/
theorem C4_confidence_guarded_and_bounded_witness :
    ((computePoints defaultSettings tsAllFalse (1/2) "NEUTRE" 15 3).bullish +
     (computePoints defaultSettings tsAllFalse (1/2) "NEUTRE" 15 3).bearish ≠ 0) ∧
    confidenceOf
      (computePoints defaultSettings tsAllFalse (1/2) "NEUTRE" 15 3).bullish
      (computePoints defaultSettings tsAllFalse (1/2) "NEUTRE" 15 3).bearish =
      (computePoints defaultSettings tsAllFalse (1/2) "NEUTRE" 15 3).bullish /
        ((computePoints defaultSettings tsAllFalse (1/2) "NEUTRE" 15 3).bullish +
         (computePoints defaultSettings tsAllFalse (1/2) "NEUTRE" 15 3).bearish) := by
  have hne : (computePoints defaultSettings tsAllFalse (1/2) "NEUTRE" 15 3).bullish +
      (computePoints defaultSettings tsAllFalse (1/2) "NEUTRE" 15 3).bearish ≠ 0 := by
    norm_num [computePoints, tsAllFalse, defaultSettings, addBull, addBear,
      scoreRsi, scoreTrend, scoreGoldenCross, scoreMacd, scoreSupport,
      scoreSentiment, scoreVix, scoreYield]
  exact ⟨hne,
    (C4_confidence_guarded_and_bounded defaultSettings tsAllFalse (1/2) "NEUTRE" 15 3).1 hne⟩

/-- A SELL-family action is not a BUY-family action. -/
theorem isSellFamily_not_buy {a : String} (h : isSellFamily a = true) :
    isBuyFamily a = false := by
  simp only [isSellFamily, Bool.or_eq_true, beq_iff_eq] at h
  rcases h with rfl | rfl <;> rfl

/-- C3: closing an OPEN position computes the final pnl_percent
direction-aware — `(exit − entry)/entry·100` for the BUY family,
`(entry − exit)/entry·100` for the SELL family — and classifies the
terminal status as CLOSED_WIN above +0.5, CLOSED_LOSS below −0.5 and
CLOSED_NEUTRAL otherwise; in particular a SELL position with entry 100
closed at 90 gets pnl 10 and CLOSED_WIN. -/
theorem C3_close_pnl_direction_and_classification (sig : SignalPerformance)
    (p : ℚ) (reason : String) (now : ℚ) (hopen : sig.status = "OPEN") :
    (∃ c, close_signal [sig] sig.signal_id p reason now = ([c], some c) ∧
      (isBuyFamily sig.action = true →
        c.pnl_percent = some ((p - sig.entry_price) / sig.entry_price * 100)) ∧
      (isSellFamily sig.action = true →
        c.pnl_percent = some ((sig.entry_price - p) / sig.entry_price * 100)) ∧
      (∀ q : ℚ, c.pnl_percent = some q →
        c.status =
          if q > 1/2 then "CLOSED_WIN"
          else if q < -(1/2) then "CLOSED_LOSS"
          else "CLOSED_NEUTRAL")) ∧
    (close_signal [sigOpenSell] "a2" 90 "TP" 50).2.map (fun s => s.pnl_percent)
      = some (some 10) ∧
    (close_signal [sigOpenSell] "a2" 90 "TP" 50).2.map (fun s => s.status)
      = some "CLOSED_WIN" := by
  refine ⟨⟨applyClose sig p reason now, ?_, ?_, ?_, ?_⟩, ?_, ?_⟩
  · simp [close_signal, hopen]
  · intro hbuy
    simp [applyClose, pnlOf, hbuy]
  · intro hsell
    simp [applyClose, pnlOf, isSellFamily_not_buy hsell, hsell]
  · intro q hq
    simp only [applyClose, Option.some.injEq] at hq
    simp [applyClose, classifyStatus, hq]
  · simp [close_signal, sigOpenSell, sigOpenBuy, applyClose, pnlOf,
      isBuyFamily, isSellFamily, classifyStatus, truncQ]
    norm_num
  · simp [close_signal, sigOpenSell, sigOpenBuy, applyClose, pnlOf,
      isBuyFamily, isSellFamily, classifyStatus, truncQ]
    norm_num

/-- Witness for C3: a concrete BUY position closed at 103 gains 3% and is
classified CLOSED_WIN. -/
theorem C3_close_pnl_direction_and_classification_witness :
    ∃ c, close_signal [sigOpenBuy] "a1" 103 "TP" 60 = ([c], some c) ∧
      c.pnl_percent = some ((103 - 100) / 100 * 100) := by
  obtain ⟨⟨c, hc, hbuy, _, _⟩, _, _⟩ :=
    C3_close_pnl_direction_and_classification sigOpenBuy 103 "TP" 60 rfl
  exact ⟨c, hc, hbuy rfl⟩

/-- C5 counterexample: a window holding one CLOSED_WIN and one
CLOSED_NEUTRAL position yields win_rate 1/2, not
win_count / (win_count + loss_count) = 1 — the neutral position is part of
the denominator. -/
theorem C5_win_rate_counterexample :
    (get_performance_metrics [sigClosedWin, sigClosedNeutral] 7 none 100).win_count = 1 ∧
    (get_performance_metrics [sigClosedWin, sigClosedNeutral] 7 none 100).loss_count = 0 ∧
    (get_performance_metrics [sigClosedWin, sigClosedNeutral] 7 none 100).win_rate = 1/2 ∧
    (get_performance_metrics [sigClosedWin, sigClosedNeutral] 7 none 100).win_rate ≠
      ((get_performance_metrics [sigClosedWin, sigClosedNeutral] 7 none 100).win_count : ℚ) /
        (((get_performance_metrics [sigClosedWin, sigClosedNeutral] 7 none 100).win_count : ℚ) +
         ((get_performance_metrics [sigClosedWin, sigClosedNeutral] 7 none 100).loss_count : ℚ)) := by
  refine ⟨?_, ?_, ?_, ?_⟩ <;>
    · norm_num [get_performance_metrics, metricsFilter, sigClosedWin, sigClosedNeutral,
        sigOpenBuy, emptyMetrics, countMatching, List.filter]
      try simp
      try norm_num

/-- C5 amended: the win rate divides the win count by the count of ALL
closed positions — wins, losses and neutrals — excluding only the open
ones from the denominator, and is 0 when no position is closed. -/
theorem C5_win_rate_amended (sigs : List SignalPerformance) (days : ℕ)
    (ticker : Option String) (now : ℚ) :
    (0 < countMatching (fun s => s.status == "CLOSED_WIN") (metricsFilter sigs days ticker now) +
        countMatching (fun s => s.status == "CLOSED_LOSS") (metricsFilter sigs days ticker now) +
        countMatching (fun s =>
            !(s.status == "OPEN" || s.status == "CLOSED_WIN" || s.status == "CLOSED_LOSS"))
          (metricsFilter sigs days ticker now) →
      (get_performance_metrics sigs days ticker now).win_rate =
        (countMatching (fun s => s.status == "CLOSED_WIN") (metricsFilter sigs days ticker now) : ℚ) /
          ((countMatching (fun s => s.status == "CLOSED_WIN") (metricsFilter sigs days ticker now) : ℚ) +
           (countMatching (fun s => s.status == "CLOSED_LOSS") (metricsFilter sigs days ticker now) : ℚ) +
           (countMatching (fun s =>
                !(s.status == "OPEN" || s.status == "CLOSED_WIN" || s.status == "CLOSED_LOSS"))
              (metricsFilter sigs days ticker now) : ℚ))) ∧
    (countMatching (fun s => s.status == "CLOSED_WIN") (metricsFilter sigs days ticker now) +
        countMatching (fun s => s.status == "CLOSED_LOSS") (metricsFilter sigs days ticker now) +
        countMatching (fun s =>
            !(s.status == "OPEN" || s.status == "CLOSED_WIN" || s.status == "CLOSED_LOSS"))
          (metricsFilter sigs days ticker now) = 0 →
      (get_performance_metrics sigs days ticker now).win_rate = 0) := by
  by_cases hlen : (metricsFilter sigs days ticker now).length = 0
  · have hnil : metricsFilter sigs days ticker now = [] := List.length_eq_zero.mp hlen
    constructor
    · intro hpos
      rw [hnil] at hpos
      simp [countMatching] at hpos
    · intro _
      simp [get_performance_metrics, hlen, emptyMetrics]
  · constructor
    · intro hpos
      simp only [get_performance_metrics, if_neg hlen]
      rw [if_pos hpos]
      push_cast
      ring
    · intro hzero
      simp only [get_performance_metrics, if_neg hlen]
      rw [if_neg (by omega)]

/-- Witness for C5 amended at the two-position window. -/
theorem C5_win_rate_amended_witness :
    0 < countMatching (fun s => s.status == "CLOSED_WIN")
          (metricsFilter [sigClosedWin, sigClosedNeutral] 7 none 100) +
        countMatching (fun s => s.status == "CLOSED_LOSS")
          (metricsFilter [sigClosedWin, sigClosedNeutral] 7 none 100) +
        countMatching (fun s =>
            !(s.status == "OPEN" || s.status == "CLOSED_WIN" || s.status == "CLOSED_LOSS"))
          (metricsFilter [sigClosedWin, sigClosedNeutral] 7 none 100) ∧
    (get_performance_metrics [sigClosedWin, sigClosedNeutral] 7 none 100).win_rate =
      (countMatching (fun s => s.status == "CLOSED_WIN")
          (metricsFilter [sigClosedWin, sigClosedNeutral] 7 none 100) : ℚ) /
        ((countMatching (fun s => s.status == "CLOSED_WIN")
            (metricsFilter [sigClosedWin, sigClosedNeutral] 7 none 100) : ℚ) +
         (countMatching (fun s => s.status == "CLOSED_LOSS")
            (metricsFilter [sigClosedWin, sigClosedNeutral] 7 none 100) : ℚ) +
         (countMatching (fun s =>
              !(s.status == "OPEN" || s.status == "CLOSED_WIN" || s.status == "CLOSED_LOSS"))
            (metricsFilter [sigClosedWin, sigClosedNeutral] 7 none 100) : ℚ)) := by
  have hpos : 0 < countMatching (fun s => s.status == "CLOSED_WIN")
        (metricsFilter [sigClosedWin, sigClosedNeutral] 7 none 100) +
      countMatching (fun s => s.status == "CLOSED_LOSS")
        (metricsFilter [sigClosedWin, sigClosedNeutral] 7 none 100) +
      countMatching (fun s =>
          !(s.status == "OPEN" || s.status == "CLOSED_WIN" || s.status == "CLOSED_LOSS"))
        (metricsFilter [sigClosedWin, sigClosedNeutral] 7 none 100) := by
    norm_num [metricsFilter, countMatching, List.filter, sigClosedWin, sigClosedNeutral,
      sigOpenBuy]
  exact ⟨hpos, (C5_win_rate_amended [sigClosedWin, sigClosedNeutral] 7 none 100).1 hpos⟩

/-- Case analysis of the decision chain: either the NEUTRE branch fired
and both price levels are absent, or a non-NEUTRE branch fired and both
levels are present. -/
theorem determine_action_cases (b r c pr s1 r1 atr : ℚ) :
    ((determine_action b r c pr s1 r1 atr).action = "NEUTRE" ∧
      (determine_action b r c pr s1 r1 atr).stop_loss = none ∧
      (determine_action b r c pr s1 r1 atr).take_profit = none) ∨
    ((determine_action b r c pr s1 r1 atr).action ≠ "NEUTRE" ∧
      ∃ v w, (determine_action b r c pr s1 r1 atr).stop_loss = some v ∧
        (determine_action b r c pr s1 r1 atr).take_profit = some w) := by
  unfold determine_action
  split_ifs <;> simp

/-- The case analysis transported to the decision stage of the signal
pipeline. -/
theorem decisionOf_cases (st : Settings) (md : MarketData) (sa : SentimentData)
    (mc : MacroData) :
    ((decisionOf st md sa mc).action = "NEUTRE" ∧
      (decisionOf st md sa mc).stop_loss = none ∧
      (decisionOf st md sa mc).take_profit = none) ∨
    ((decisionOf st md sa mc).action ≠ "NEUTRE" ∧
      ∃ v w, (decisionOf st md sa mc).stop_loss = some v ∧
        (decisionOf st md sa mc).take_profit = some w) := by
  unfold decisionOf
  exact determine_action_cases _ _ _ _ _ _ _

/-- A present price level is packaged to `none` exactly when it is zero
(Python float truthiness). -/
theorem truthyRound_some_eq_none_iff (v : ℚ) : truthyRound (some v) = none ↔ v = 0 := by
  by_cases h : v = 0
  · simp [truthyRound, h]
  · simp [truthyRound, h]

/-- C7 counterexample: a BUY signal generated from a snapshot whose S1
support level is exactly 0 has a non-NEUTRE action but a null stop-loss —
the `round(x, 2) if x else None` packaging drops the zero level. -/
theorem C7_nullable_levels_counterexample :
    (generate_trading_signals defaultSettings "GC=F" mdZeroS1 saNeutral mcCalm).action
      = "ACHAT" ∧
    (generate_trading_signals defaultSettings "GC=F" mdZeroS1 saNeutral mcCalm).action
      ≠ "NEUTRE" ∧
    (generate_trading_signals defaultSettings "GC=F" mdZeroS1 saNeutral mcCalm).stop_loss
      = none := by
  have ha : (generate_trading_signals defaultSettings "GC=F" mdZeroS1 saNeutral mcCalm).action
      = "ACHAT" := by
    norm_num [generate_trading_signals, mdZeroS1, saNeutral, mcCalm, defaultSettings,
      scoreOf, decisionOf, snapshotLevels, computePoints, get_technical_signals,
      scoreRsi, scoreTrend, scoreGoldenCross, scoreMacd, scoreSupport, scoreSentiment,
      scoreVix, scoreYield, addBull, addBear, confidenceOf, determine_action,
      truthyRound, pyRound2, roundHalfEven]
  refine ⟨ha, ?_, ?_⟩
  · rw [ha]
    simp
  · norm_num [generate_trading_signals, mdZeroS1, saNeutral, mcCalm, defaultSettings,
      scoreOf, decisionOf, snapshotLevels, computePoints, get_technical_signals,
      scoreRsi, scoreTrend, scoreGoldenCross, scoreMacd, scoreSupport, scoreSentiment,
      scoreVix, scoreYield, addBull, addBear, confidenceOf, determine_action,
      truthyRound, pyRound2, roundHalfEven]

/-- C7 amended: on error-free input the returned stop-loss and take-profit
are null when the action is NEUTRE; for a non-NEUTRE action the decision
stage produces both levels, and the returned level is null exactly when
the computed level equals 0 — the Python truthiness guard in the
`round(x, 2) if x else None` packaging. -/
theorem C7_nullable_levels_amended (st : Settings) (ticker : String)
    (md : MarketData) (sa : SentimentData) (mc : MacroData) (h : md.error = none) :
    (generate_trading_signals st ticker md sa mc).action = (decisionOf st md sa mc).action ∧
    ((decisionOf st md sa mc).action = "NEUTRE" →
      (generate_trading_signals st ticker md sa mc).stop_loss = none ∧
      (generate_trading_signals st ticker md sa mc).take_profit = none) ∧
    ((decisionOf st md sa mc).action ≠ "NEUTRE" →
      ∃ v w, (decisionOf st md sa mc).stop_loss = some v ∧
        (decisionOf st md sa mc).take_profit = some w ∧
        ((generate_trading_signals st ticker md sa mc).stop_loss = none ↔ v = 0) ∧
        ((generate_trading_signals st ticker md sa mc).take_profit = none ↔ w = 0)) := by
  have hg : generate_trading_signals st ticker md sa mc =
      { ticker := ticker
        action := (decisionOf st md sa mc).action
        prix_entree := pyRound2 (decisionOf st md sa mc).entry
        stop_loss := truthyRound (decisionOf st md sa mc).stop_loss
        take_profit := truthyRound (decisionOf st md sa mc).take_profit
        confiance := pyRound2 (confidenceOf (scoreOf st md sa mc).bullish
          (scoreOf st md sa mc).bearish)
        raisonnement := String.intercalate "; " (scoreOf st md sa mc).reasons } := by
    unfold generate_trading_signals
    rw [h]
  rcases decisionOf_cases st md sa mc with ⟨ha, hs, ht⟩ | ⟨ha, v, w, hs, ht⟩
  · refine ⟨by rw [hg], fun _ => ?_, fun hne => absurd ha hne⟩
    rw [hg]
    simp [hs, ht, truthyRound]
  · refine ⟨by rw [hg], fun hneu => absurd hneu ha, fun _ => ?_⟩
    refine ⟨v, w, hs, ht, ?_, ?_⟩
    · rw [hg]
      simp only [hs]
      exact truthyRound_some_eq_none_iff v
    · rw [hg]
      simp only [ht]
      exact truthyRound_some_eq_none_iff w

/-- Witness for C7 amended at the zero-S1 snapshot. -/
theorem C7_nullable_levels_amended_witness :
    mdZeroS1.error = none ∧
    (generate_trading_signals defaultSettings "GC=F" mdZeroS1 saNeutral mcCalm).action
      = (decisionOf defaultSettings mdZeroS1 saNeutral mcCalm).action :=
  ⟨rfl, (C7_nullable_levels_amended defaultSettings "GC=F" mdZeroS1 saNeutral mcCalm rfl).1⟩

/-- C2 counterexample: an OPEN BUY position whose take-profit condition
holds (price 106 ≥ target 105) but whose age also exceeds the timeout
(300 > 240 minutes) is closed with exit_reason TIMEOUT, not TP — the
timeout check runs after the TP/SL checks and overwrites their reason, so
the conditions are not resolved by the claimed first-match order. -/
theorem C2_exit_priority_counterexample :
    tpslReason sigOpenBuy 106 = some "TP" ∧
    timedOut defaultSettings sigOpenBuy 300 = true ∧
    ((check_and_close_signals defaultSettings mktGold106 300 [sigOpenBuy]).2.map
      (fun s => s.exit_reason)) = [some "TIMEOUT"] := by
  refine ⟨?_, ?_, ?_⟩
  · norm_num [tpslReason, sigOpenBuy, levelHit, isBuyFamily, isSellFamily]
  · norm_num [timedOut, sigOpenBuy, defaultSettings]
  · norm_num [check_and_close_signals, ccLoop, mktGold106, sigOpenBuy, defaultSettings,
      update_signal, close_signal, applyUpdate, applyClose, exitDecision, timedOut,
      tpslReason, levelHit, isBuyFamily, isSellFamily, pnlOf, classifyStatus, truncQ]

/-- C2 amended: within the price checks TP is evaluated before SL with
first match winning (for both action families), but the age-timeout check
(elapsed strictly greater than the configured max holding minutes) is
evaluated after them and overrides: when the timeout fires the recorded
reason is TIMEOUT even if TP or SL also hold, and TP/SL reasons are
recorded only when the timeout has not fired; the position considered by
check_and_close_signals is closed with exactly the resulting reason, and
stays open (only its unrealized P&L updated) when no condition fires. -/
theorem C2_exit_priority_amended (st : Settings) (sig : SignalPerformance)
    (p now : ℚ) (hopen : sig.status = "OPEN") (hp : p ≠ 0) :
    (isBuyFamily sig.action = true →
      levelHit sig.take_profit (fun tp => decide (p ≥ tp)) = true →
      tpslReason sig p = some "TP") ∧
    (isSellFamily sig.action = true →
      levelHit sig.take_profit (fun tp => decide (p ≤ tp)) = true →
      tpslReason sig p = some "TP") ∧
    (timedOut st sig now = true → exitDecision st sig p now = some "TIMEOUT") ∧
    (timedOut st sig now = false → exitDecision st sig p now = tpslReason sig p) ∧
    (∀ reason, exitDecision st sig p now = some reason →
      (check_and_close_signals st (fun _ => ⟨none, some p⟩) now [sig]).2.map
        (fun s => s.exit_reason) = [some reason]) ∧
    (exitDecision st sig p now = none →
      check_and_close_signals st (fun _ => ⟨none, some p⟩) now [sig]
        = ([applyUpdate sig p now], [])) := by
  refine ⟨?_, ?_, ?_, ?_, ?_, ?_⟩
  · intro hb ht
    simp [tpslReason, hb, ht]
  · intro hs ht
    simp [tpslReason, isSellFamily_not_buy hs, hs, ht]
  · intro h
    simp [exitDecision, h]
  · intro h
    simp [exitDecision, h]
  · intro reason hr
    simp [check_and_close_signals, ccLoop, hopen, hp, hr, update_signal,
      applyUpdate, close_signal, applyClose]
  · intro hnone
    simp [check_and_close_signals, ccLoop, hopen, hp, hnone, update_signal,
      applyUpdate, close_signal, applyClose]

/-- Witness for C2 amended: with no timeout (now = 100), the same BUY
position closes with reason TP. -/
theorem C2_exit_priority_amended_witness :
    sigOpenBuy.status = "OPEN" ∧ (106 : ℚ) ≠ 0 ∧
    (check_and_close_signals defaultSettings (fun _ => ⟨none, some 106⟩) 100
      [sigOpenBuy]).2.map (fun s => s.exit_reason) = [some "TP"] := by
  have h5 := (C2_exit_priority_amended defaultSettings sigOpenBuy 106 100 rfl
    (by norm_num)).2.2.2.2.1
  refine ⟨rfl, by norm_num, h5 "TP" ?_⟩
  norm_num [exitDecision, timedOut, tpslReason, levelHit, sigOpenBuy,
    defaultSettings, isBuyFamily]

/-- Every terminal status produced by the close classification is one of
the three closed statuses. -/
theorem classifyStatus_mem_closed (q : ℚ) : classifyStatus q ∈ closedStatuses := by
  unfold classifyStatus closedStatuses
  split_ifs <;> simp

/-- The close classification never yields the OPEN status. -/
theorem classifyStatus_ne_open (q : ℚ) : classifyStatus q ≠ "OPEN" := by
  unfold classifyStatus
  split_ifs <;> decide

/-- The unrealized-P&L update preserves the per-position invariant: it
touches only pnl_percent and holding time, never status or exit data. -/
theorem posInvariant_applyUpdate {sig : SignalPerformance} (h : posInvariant sig)
    (p now : ℚ) : posInvariant (applyUpdate sig p now) := by
  constructor
  · intro hst
    have hst0 : sig.status = "OPEN" := by simpa [applyUpdate] using hst
    have := h.1 hst0
    simpa [applyUpdate] using this
  · intro hst
    have hst0 : sig.status ∈ closedStatuses := by simpa [applyUpdate] using hst
    have := h.2 hst0
    simp only [applyUpdate]
    exact ⟨this.1, this.2.1, this.2.2.1, by simp⟩

/-- The close mutation establishes the per-position invariant outright: it
sets a closed status and all four exit fields in the same step. -/
theorem posInvariant_applyClose (sig : SignalPerformance) (p : ℚ) (reason : String)
    (now : ℚ) : posInvariant (applyClose sig p reason now) := by
  constructor
  · intro hst
    have : classifyStatus (pnlOf sig.action sig.entry_price p) = "OPEN" := by
      simpa [applyClose] using hst
    exact absurd this (classifyStatus_ne_open _)
  · intro _
    simp [applyClose]

/-- `record_signal` preserves the ledger invariant: the appended position
is OPEN with empty exit data. -/
theorem ledgerInvariant_record (sigs : List SignalPerformance)
    (ticker action : String) (entry : ℚ) (stop tp : Option ℚ) (conf : ℚ)
    (sid : String) (now : ℚ) (h : ledgerInvariant sigs) :
    ledgerInvariant (record_signal sigs ticker action entry stop tp conf sid now) := by
  intro x hx
  rcases List.mem_append.mp hx with hx | hx
  · exact h x hx
  · rcases List.mem_singleton.mp hx with rfl
    constructor
    · intro _
      exact ⟨rfl, rfl, rfl⟩
    · intro hmem
      simp [record_signal, closedStatuses] at hmem

/-- `update_signal` preserves the ledger invariant. -/
theorem ledgerInvariant_update (sigs : List SignalPerformance) (sid : String)
    (p now : ℚ) (h : ledgerInvariant sigs) :
    ledgerInvariant (update_signal sigs sid p now).1 := by
  induction sigs with
  | nil => intro x hx; simp [update_signal] at hx
  | cons sig rest ih =>
    by_cases hg : sig.signal_id = sid ∧ sig.status = "OPEN"
    · simp only [update_signal, if_pos hg]
      intro x hx
      rcases List.mem_cons.mp hx with rfl | hx
      · exact posInvariant_applyUpdate (h sig (List.mem_cons_self sig rest)) p now
      · exact h x (List.mem_cons_of_mem sig hx)
    · simp only [update_signal, if_neg hg]
      intro x hx
      rcases List.mem_cons.mp hx with rfl | hx
      · exact h x (List.mem_cons_self x rest)
      · exact ih (fun s hs => h s (List.mem_cons_of_mem sig hs)) x hx

/-- `close_signal` preserves the ledger invariant. -/
theorem ledgerInvariant_close (sigs : List SignalPerformance) (sid : String)
    (p : ℚ) (reason : String) (now : ℚ) (h : ledgerInvariant sigs) :
    ledgerInvariant (close_signal sigs sid p reason now).1 := by
  induction sigs with
  | nil => intro x hx; simp [close_signal] at hx
  | cons sig rest ih =>
    by_cases hg : sig.signal_id = sid ∧ sig.status = "OPEN"
    · simp only [close_signal, if_pos hg]
      intro x hx
      rcases List.mem_cons.mp hx with rfl | hx
      · exact posInvariant_applyClose sig p reason now
      · exact h x (List.mem_cons_of_mem sig hx)
    · simp only [close_signal, if_neg hg]
      intro x hx
      rcases List.mem_cons.mp hx with rfl | hx
      · exact h x (List.mem_cons_self x rest)
      · exact ih (fun s hs => h s (List.mem_cons_of_mem sig hs)) x hx

/-- The check-and-close loop preserves the ledger invariant: every step is
a composition of `update_signal` and `close_signal`. -/
theorem ledgerInvariant_ccLoop (st : Settings) (market : String → TickerData)
    (now : ℚ) : ∀ (fuel k : Nat) (sigs : List SignalPerformance),
    ledgerInvariant sigs → ledgerInvariant (ccLoop st market now fuel k sigs).1 := by
  intro fuel
  induction fuel with
  | zero => intro k sigs h; simpa [ccLoop] using h
  | succ fuel ih =>
    intro k sigs h
    simp only [ccLoop]
    cases hsig : sigs[k]? with
    | none => exact h
    | some sig =>
      dsimp only
      by_cases hst : sig.status ≠ "OPEN"
      · rw [if_pos hst]; exact ih _ _ h
      · rw [if_neg hst]
        by_cases herr : (market sig.ticker).error.isSome
        · rw [if_pos herr]; exact ih _ _ h
        · rw [if_neg herr]
          cases hcp : (market sig.ticker).current_price with
          | none => exact ih _ _ h
          | some p =>
            dsimp only
            by_cases hp : p = 0
            · rw [if_pos hp]; exact ih _ _ h
            · rw [if_neg hp]
              have h1 := ledgerInvariant_update sigs sig.signal_id p now h
              cases hed : exitDecision st sig p now with
              | none => exact ih _ _ h1
              | some reason =>
                dsimp only
                have h2 := ledgerInvariant_close
                  (update_signal sigs sig.signal_id p now).1 sig.signal_id p reason now h1
                cases hc2 : (close_signal (update_signal sigs sig.signal_id p now).1
                    sig.signal_id p reason now).2 with
                | none => exact ih _ _ h2
                | some closed =>
                  dsimp only
                  exact ih _ _ h2

/-- C10: every tracker operation — record_signal, update_signal,
close_signal and check_and_close_signals — preserves the ledger invariant
that an OPEN position has exit_price, timestamp_exit and exit_reason all
null while a position in a terminal status has exit_price, timestamp_exit,
exit_reason and pnl_percent all non-null (the exit fields are set in the
same step as the status change). -/
theorem C10_ledger_invariant_preserved (sigs : List SignalPerformance)
    (h : ledgerInvariant sigs) (ticker action : String) (entry : ℚ)
    (stop tp : Option ℚ) (conf : ℚ) (sid usid csid : String) (p : ℚ)
    (reason : String) (now : ℚ) (st : Settings) (market : String → TickerData) :
    ledgerInvariant (record_signal sigs ticker action entry stop tp conf sid now) ∧
    ledgerInvariant (update_signal sigs usid p now).1 ∧
    ledgerInvariant (close_signal sigs csid p reason now).1 ∧
    ledgerInvariant (check_and_close_signals st market now sigs).1 :=
  ⟨ledgerInvariant_record sigs ticker action entry stop tp conf sid now h,
   ledgerInvariant_update sigs usid p now h,
   ledgerInvariant_close sigs csid p reason now h,
   ledgerInvariant_ccLoop st market now sigs.length 0 sigs h⟩

/-- Witness for C10 at a concrete two-position ledger. -/
theorem C10_ledger_invariant_preserved_witness :
    ledgerInvariant [sigOpenBuy, sigClosedWin] ∧
    (ledgerInvariant (record_signal [sigOpenBuy, sigClosedWin] "SI=F" "VENTE" 30
        (some 31) (some 29) (7/10) "z9" 60) ∧
     ledgerInvariant (update_signal [sigOpenBuy, sigClosedWin] "a1" 101 60).1 ∧
     ledgerInvariant (close_signal [sigOpenBuy, sigClosedWin] "a1" 101 "MANUAL" 60).1 ∧
     ledgerInvariant (check_and_close_signals defaultSettings mktGold106 60
        [sigOpenBuy, sigClosedWin]).1) :=
  have hinv : ledgerInvariant [sigOpenBuy, sigClosedWin] := by
    unfold ledgerInvariant posInvariant closedStatuses
    decide
  ⟨hinv,
   C10_ledger_invariant_preserved [sigOpenBuy, sigClosedWin] hinv
     "SI=F" "VENTE" 30 (some 31) (some 29) (7/10) "z9" "a1" "a1" 101 "MANUAL" 60
     defaultSettings mktGold106⟩

end BotFinance
